import Mathlib

/-!
Shallow embedding of `src/src/libs/dialog/src/legacy_dialog.cpp` (storm-engine
legacy dialog panel).

The embedding covers the panel sprite template (`SPRITE_DATA`, `ScaleUv`), the
back-buffer mesh generation (`CreateBackBuffers`, `FillIndexBuffer`,
`UpdateBackBuffers`), the dirty-flag driven rebuild policy
(`UpdateScreenSize`, `UpdateLinks`, `UpdateDialogText`, `Realize`), the link
selection controls (`ProcessControls`), dialog text caching
(`UpdateDialogText`) and the unfade time ramp (`Unfade`).

Modelling conventions: C++ `float`/`double` values become `ℚ`; machine
integers become `ℕ`/`ℤ`, with explicit `% 2 ^ 64` where the source relies on
unsigned `size_t` wrap-around; the text-wrapping helper
`DIALOG::AddToStringArrayLimitedByWidth` lives in another translation unit and
is treated as an oracle parameter (`String → List String`); render and sound
service calls are external effects, modelled as data in the produced state
(vertex lists, tick counters, raised events).
-/

namespace LegacyDialog

/-- `COLOR_NORMAL` in the source: ARGB full-opacity white `0xFFFFFFFF`. -/
def COLOR_NORMAL : ℕ := 0xFFFFFFFF

/-- `UNFADE_TIME` in the source (milliseconds). -/
def UNFADE_TIME : ℕ := 1000

/-- `DIALOG_MAX_LINES` in the source. -/
def DIALOG_MAX_LINES : ℕ := 8

/-- `DIVIDER_HEIGHT` in the source. -/
def DIVIDER_HEIGHT : ℚ := 10

/-- `DIALOG_LINE_HEIGHT` in the source (template pixels per dialog line). -/
def DIALOG_LINE_HEIGHT : ℤ := 26

/-- `FRECT` rectangle, fields in source order `x1 y1 x2 y2` with the
`left/top/right/bottom` aliases used by the dialog code. -/
structure FRECT where
  left : ℚ
  top : ℚ
  right : ℚ
  bottom : ℚ
deriving DecidableEq, Inhabited

/-- `ScaleUv`: normalize template texture coordinates by the 1024×256 atlas. -/
def ScaleUv (uv : FRECT) : FRECT :=
  { left := uv.left * (1 / 1024)
    top := uv.top * (1 / 256)
    right := uv.right * (1 / 1024)
    bottom := uv.bottom * (1 / 256) }

/-- `SpriteInfo`: template-space position rectangle plus normalized UVs. -/
structure SpriteInfo where
  position : FRECT
  uv : FRECT
deriving DecidableEq, Inhabited

/-- `SPRITE_DATA`: the 10 static panel sprite templates, in source order
(head overlay ×2, general frame ×3, static overlay ×2, line filler ×2,
divider ×1). -/
def SPRITE_DATA : List SpriteInfo :=
  [ -- Head overlay
    { position := ⟨29, 25, 147, 37⟩
      uv := ScaleUv ⟨904, 91, 904 + 119, 91 + 12⟩ },
    { position := ⟨29, 173, 146, 185⟩
      uv := ScaleUv ⟨904, 105, 904 + 119, 105 + 11⟩ },
    -- General
    { position := ⟨-39, -39, 169, 216⟩
      uv := ScaleUv ⟨0, 0, 208, 255⟩ },
    { position := ⟨169, -39, 678, 79⟩
      uv := ScaleUv ⟨208, 0, 757, 118⟩ },
    { position := ⟨-39, 451, 678, 518⟩
      uv := ScaleUv ⟨209, 189, 1023, 255⟩ },
    -- Static vertices 2
    { position := ⟨29, 25, 147, 37⟩
      uv := ScaleUv ⟨904, 91, 1023, 103⟩ },
    { position := ⟨29, 173, 146, 185⟩
      uv := ScaleUv ⟨904, 105, 1023, 116⟩ },
    -- Dialog lines
    { position := ⟨-39, 479 - 67 + 39 - (DIALOG_LINE_HEIGHT : ℚ), 639 + 39, 479 - 67 + 39⟩
      uv := ScaleUv ⟨209, 155, 1023, 186⟩ },
    { position := ⟨-39, 479 - 67 + 39 - (DIALOG_LINE_HEIGHT : ℚ), 639 + 39, 479 - 67 + 39⟩
      uv := ScaleUv ⟨209, 119, 1023, 156⟩ },
    -- Divider
    { position := ⟨35, 450 - DIVIDER_HEIGHT / 2, 605, 450 + (DIVIDER_HEIGHT + 2)⟩
      uv := ScaleUv ⟨209, 94, 602, 116⟩ } ]

/-- `SPRITE_COUNT = SPRITE_DATA.size() + (DIALOG_MAX_LINES - 1)` in the source. -/
def SPRITE_COUNT : ℕ := SPRITE_DATA.length + (DIALOG_MAX_LINES - 1)

/-- `SPRITE_DATA[i]` (total access with the derived default, as in the
source all accesses are in bounds). -/
def spriteAt (i : ℕ) : SpriteInfo := SPRITE_DATA.getD i default

/-- `XI_TEX_VERTEX`: pre-transformed screen-space vertex
`{pos = (x, y, z), rhw, color, u, v}`. -/
structure XI_TEX_VERTEX where
  x : ℚ
  y : ℚ
  z : ℚ
  rhw : ℚ
  color : ℕ
  u : ℚ
  v : ℚ
deriving DecidableEq, Inhabited

/-- `createSpriteMesh` lambda inside `LegacyDialog::UpdateBackBuffers`:
one sprite expands to the 4 vertices top-left, top-right, bottom-left,
bottom-right, positions scaled by the screen scale, `z = 1`, `rhw = 0.5`,
constant color. -/
def createSpriteMesh (hScale vScale : ℚ) (sprite : SpriteInfo) : List XI_TEX_VERTEX :=
  [ { x := hScale * sprite.position.left, y := vScale * sprite.position.top, z := 1
      rhw := 1 / 2, color := COLOR_NORMAL, u := sprite.uv.left, v := sprite.uv.top },
    { x := hScale * sprite.position.right, y := vScale * sprite.position.top, z := 1
      rhw := 1 / 2, color := COLOR_NORMAL, u := sprite.uv.right, v := sprite.uv.top },
    { x := hScale * sprite.position.left, y := vScale * sprite.position.bottom, z := 1
      rhw := 1 / 2, color := COLOR_NORMAL, u := sprite.uv.left, v := sprite.uv.bottom },
    { x := hScale * sprite.position.right, y := vScale * sprite.position.bottom, z := 1
      rhw := 1 / 2, color := COLOR_NORMAL, u := sprite.uv.right, v := sprite.uv.bottom } ]

/-- `FillIndexBuffer`: for sprite `n` write the six indices
`4n+0, 4n+2, 4n+1, 4n+1, 4n+2, 4n+3` at positions `6n .. 6n+5`.  The
`uint16_t` casts in the source are exact for all produced values
(`≤ 4 · SPRITE_COUNT + 3 < 2¹⁶`), so plain `ℕ` is used. -/
def fillIndexBuffer (spriteCount : ℕ) : List ℕ :=
  (List.range spriteCount).flatMap fun n =>
    [n * 4 + 0, n * 4 + 2, n * 4 + 1, n * 4 + 1, n * 4 + 2, n * 4 + 3]

/-- Shift a sprite template vertically upwards (`position.top -= offset;
position.bottom -= offset` in the source). -/
def offsetSprite (offset : ℚ) (sprite : SpriteInfo) : SpriteInfo :=
  { sprite with
    position :=
      { sprite.position with
        top := sprite.position.top - offset
        bottom := sprite.position.bottom - offset } }

/-- The ordered sprite list written by `LegacyDialog::UpdateBackBuffers`
(7 static sprites, `DIALOG_MAX_LINES` replicated line fillers, the shifted
top-of-panel sprite, the shifted divider sprite) together with the computed
`textureLines_` value. -/
def panelSprites (vScale : ℚ) (lineHeight : ℤ) (bodyCount linkCount : ℕ) :
    List SpriteInfo × ℤ :=
  let base := SPRITE_DATA.take 7
  let lineSprites := (List.range DIALOG_MAX_LINES).map fun i =>
    offsetSprite ((DIALOG_LINE_HEIGHT : ℚ) * (i : ℚ)) (spriteAt 7)
  let textLines : ℕ := bodyCount + linkCount
  let floorLines : ℤ :=
    ⌊(((textLines : ℚ) * (lineHeight : ℚ)) / vScale) / (DIALOG_LINE_HEIGHT : ℚ)⌋
  let textureLines : ℤ := if linkCount ≠ 0 then floorLines + 1 else floorLines
  let topSprite := offsetSprite ((DIALOG_LINE_HEIGHT : ℚ) * (textureLines : ℚ)) (spriteAt 8)
  let dividerSprite :=
    offsetSprite ((linkCount : ℚ) * (lineHeight : ℚ) / vScale) (spriteAt 9)
  (base ++ lineSprites ++ [topSprite] ++ [dividerSprite], textureLines)

/-- The full vertex buffer contents written by one run of
`LegacyDialog::UpdateBackBuffers`, plus the new `textureLines_`. -/
def updateBackBuffersVertices (hScale vScale : ℚ) (lineHeight : ℤ)
    (bodyCount linkCount : ℕ) : List XI_TEX_VERTEX × ℤ :=
  let p := panelSprites vScale lineHeight bodyCount linkCount
  (p.1.flatMap (createSpriteMesh hScale vScale), p.2)

/-- The dialog's device buffers: capacities fixed by
`LegacyDialog::CreateBackBuffers`, the index data written once by
`FillIndexBuffer`, and the vertex data rewritten by each
`UpdateBackBuffers`. -/
structure BackBuffers where
  vertexCapacity : ℕ
  indexCapacity : ℕ
  indexData : List ℕ
  vertexData : List XI_TEX_VERTEX
deriving DecidableEq

/-- `LegacyDialog::CreateBackBuffers`: allocate `SPRITE_COUNT * 4` vertices
and `SPRITE_COUNT * 6` indices and fill the index buffer once. -/
def createBackBuffers : BackBuffers :=
  { vertexCapacity := SPRITE_COUNT * 4
    indexCapacity := SPRITE_COUNT * 6
    indexData := fillIndexBuffer SPRITE_COUNT
    vertexData := [] }

/-- `LinkEntry` in the source: one wrapped visual link line plus the index of
the logical link it came from. -/
structure LinkEntry where
  text : String
  lineIndex : ℤ
deriving DecidableEq, Inhabited

/-- One child of the `Links` attribute tree: its string value (the link text)
and its optional `go` attribute (the navigation target). -/
structure LinkAttr where
  value : String
  go : Option String
deriving DecidableEq, Inhabited

/-- The fields of `LegacyDialog` (plus the mirrored external attribute tree)
that the layout/selection logic reads and writes.  `linksAttr` mirrors
`AttributesPointer->GetAttributeClass("Links")`, `currentNode` mirrors the
`CurrentNode` attribute written on confirm. -/
structure DialogState where
  screenScaleX : ℚ
  screenScaleY : ℚ
  fontScale : ℚ
  lineHeight : ℤ
  dialogText : String
  formattedDialogText : List String
  links : List String
  formattedLinks : List LinkEntry
  linksAttr : Option (List LinkAttr)
  currentNode : Option String
  selectedLink : ℕ
  backNeedsUpdate : Bool
  textureLines : ℤ
  fadeTime : ℕ
deriving DecidableEq

/-- `links_` after `LegacyDialog::UpdateLinks`: the raw value text of every
child of the `Links` attribute (empty when the attribute is absent). -/
def linkValues (attr : Option (List LinkAttr)) : List String :=
  match attr with
  | none => []
  | some l => l.map LinkAttr.value

/-- `formattedLinks_` after `LegacyDialog::UpdateLinks`: each link's value is
wrapped by `DIALOG::AddToStringArrayLimitedByWidth` (the oracle `w`) and each
produced visual line is tagged with the link's index. -/
def wrappedLinkEntries (w : String → List String) (attr : Option (List LinkAttr)) :
    List LinkEntry :=
  match attr with
  | none => []
  | some l => l.enum.flatMap fun p => (w p.2.value).map fun t =>
      { text := t, lineIndex := (p.1 : ℤ) }

/-- `LegacyDialog::UpdateLinks`: clear and refill `links_`/`formattedLinks_`
from the `Links` attribute tree, and set the dirty flag when the wrapped
link-line count changed.  `selectedLink_` is not touched. -/
def updateLinks (w : String → List String) (attr : Option (List LinkAttr))
    (s : DialogState) : DialogState :=
  let previous := s.formattedLinks.length
  let refilled :=
    { s with
      links := linkValues attr
      formattedLinks := wrappedLinkEntries w attr
      linksAttr := attr }
  if previous ≠ (wrappedLinkEntries w attr).length then
    { refilled with backNeedsUpdate := true }
  else refilled

/-- `formattedDialogText_` recomputed by `LegacyDialog::UpdateDialogText`:
cleared, then refilled from `dialogText_` when that is non-empty. -/
def formatDialogLines (w : String → List String) (t : String) : List String :=
  if t.isEmpty then [] else w t

/-- `LegacyDialog::UpdateDialogText`: keep the previous `dialogText_` when the
node has no `Text` attribute, rewrap, and set the dirty flag when the wrapped
body-line count changed. -/
def updateDialogText (w : String → List String) (textAttr : Option String)
    (s : DialogState) : DialogState :=
  let previous := s.formattedDialogText.length
  let newText := Option.getD textAttr s.dialogText
  let rewrapped :=
    { s with
      dialogText := newText
      formattedDialogText := formatDialogLines w newText }
  if previous ≠ (formatDialogLines w newText).length then
    { rewrapped with backNeedsUpdate := true }
  else rewrapped

/-- The screen-scale trigger condition of `LegacyDialog::UpdateScreenSize`:
`fabs(screenScale_.x - hScale) > 1e-3f || fabs(screenScale_.y - vScale) > 1e-3f`. -/
def scaleMoved (hScale vScale : ℚ) (s : DialogState) : Prop :=
  1 / 1000 < |s.screenScaleX - hScale| ∨ 1 / 1000 < |s.screenScaleY - vScale|

instance (hScale vScale : ℚ) (s : DialogState) : Decidable (scaleMoved hScale vScale s) :=
  instDecidableOr

/-- `LegacyDialog::UpdateScreenSize`: adopt the new scale and set the dirty
flag only when a component moved by more than `1e-3`; always adopt the new
font scale, and recompute the cached line height (an `int32_t` cast of
`CharHeight(mainFont) * fontScale`, both non-negative, hence a floor) only
when the font scale moved by more than `1e-3`. -/
def updateScreenSize (hScale vScale newFontScale : ℚ) (charHeight : ℤ)
    (s : DialogState) : DialogState :=
  let s1 :=
    if scaleMoved hScale vScale s then
      { s with screenScaleX := hScale, screenScaleY := vScale, backNeedsUpdate := true }
    else s
  if 1 / 1000 < |newFontScale - s1.fontScale| then
    { s1 with fontScale := newFontScale, lineHeight := ⌊(charHeight : ℚ) * newFontScale⌋ }
  else { s1 with fontScale := newFontScale }

/-- The three keyboard bindings that feed each of `bDoUp`, `bDoDown`,
`bDoAction` in `LegacyDialog::ProcessControls`. -/
structure ControlInput where
  up1 : Bool
  up2 : Bool
  up3 : Bool
  down1 : Bool
  down2 : Bool
  down3 : Bool
  action1 : Bool
  action2 : Bool
  action3 : Bool
deriving DecidableEq

/-- OR of the three polled control states for one logical control. -/
def controlTriple (a b c : Bool) : Bool := a || b || c

/-- External effects of one `ProcessControls` run: number of `PlayTick` sound
plays and whether `core.Event("DialogEvent")` was raised. -/
structure ControlOutput where
  ticks : ℕ
  eventRaised : Bool
deriving DecidableEq

/-- `links_.size() - 1` evaluated in `size_t` arithmetic: wraps to
`2 ^ 64 - 1` when the link list is empty. -/
def sizeSub1 (n : ℕ) : ℕ := (n + 2 ^ 64 - 1) % 2 ^ 64

/-- `if (bDoUp && selectedLink_ > 0) { PlayTick(); --selectedLink_; }`. -/
def stepUp (press : Bool) (s : DialogState) : DialogState × ℕ :=
  if press ∧ 0 < s.selectedLink then
    ({ s with selectedLink := s.selectedLink - 1 }, 1)
  else (s, 0)

/-- `if (bDoDown && selectedLink_ < links_.size() - 1) { PlayTick();
++selectedLink_; }` — the comparison happens on `size_t`, so an empty list
compares against `2 ^ 64 - 1`. -/
def stepDown (press : Bool) (s : DialogState) : DialogState × ℕ :=
  if press ∧ s.selectedLink < sizeSub1 s.links.length then
    ({ s with selectedLink := s.selectedLink + 1 }, 1)
  else (s, 0)

/-- The `bDoAction` block of `LegacyDialog::ProcessControls`: `PlayTick()`
runs unconditionally; then, when the `Links` attribute exists and has a child
at `selectedLink_`, its `go` attribute is written to `CurrentNode`,
`selectedLink_` is reset to 0, and `DialogEvent` is raised.  The result also
carries the tick count and whether the event was raised. -/
def stepAction (press : Bool) (s : DialogState) : DialogState × ℕ × Bool :=
  if press then
    match s.linksAttr with
    | some l =>
      match l[s.selectedLink]? with
      | some entry =>
        ({ s with currentNode := entry.go, selectedLink := 0 }, 1, true)
      | none => (s, 1, false)
    | none => (s, 1, false)
  else (s, 0, false)

/-- `LegacyDialog::ProcessControls`: poll the three up, three down and three
action bindings, then run the up, down and action blocks in source order. -/
def processControls (input : ControlInput) (s : DialogState) :
    DialogState × ControlOutput :=
  let bDoUp := controlTriple input.up1 input.up2 input.up3
  let bDoDown := controlTriple input.down1 input.down2 input.down3
  let bDoAction := controlTriple input.action1 input.action2 input.action3
  let r1 := stepUp bDoUp s
  let r2 := stepDown bDoDown r1.1
  let r3 := stepAction bDoAction r2.1
  (r3.1, { ticks := r1.2 + r2.2 + r3.2.1, eventRaised := r3.2.2 })

/-- `LegacyDialog::Unfade`: while `fadeTime_ <= UNFADE_TIME`, accumulate the
frame delta and emit the clamped time scale `fadeTime_ / UNFADE_TIME` through
`core.SetTimeScale`; afterwards emit nothing. -/
def unfade (delta : ℕ) (fadeTime : ℕ) : ℕ × Option ℚ :=
  if fadeTime ≤ UNFADE_TIME then
    let ft := fadeTime + delta
    let timeK : ℚ := (ft : ℚ) / (UNFADE_TIME : ℚ)
    (ft, some (if 1 < timeK then 1 else timeK))
  else (fadeTime, none)

/-- The sequence of time-scale values emitted by `Unfade` over a sequence of
frame deltas, starting from a given counter value. -/
def unfadeOutputs : List ℕ → ℕ → List ℚ
  | [], _ => []
  | d :: rest, ft =>
    (match (unfade d ft).2 with
     | some o => [o]
     | none => []) ++ unfadeOutputs rest (unfade d ft).1

/-- The state effect of `LegacyDialog::UpdateBackBuffers` (the vertex data it
writes is `updateBackBuffersVertices`): recompute `textureLines_` and clear
the dirty flag. -/
def updateBackBuffersState (s : DialogState) : DialogState :=
  { s with
    textureLines :=
      (updateBackBuffersVertices s.screenScaleX s.screenScaleY s.lineHeight
        s.formattedDialogText.length s.formattedLinks.length).2
    backNeedsUpdate := false }

/-- The per-frame inputs: the frame delta, the current attribute tree
(`Links` children and `Text`), the two wrapping oracles (fixed font, scale
and width limit for the frame), the viewport-derived scales and the char
height reported by the render service. -/
structure FrameInput where
  rDeltaTime : ℕ
  linksAttr : Option (List LinkAttr)
  textAttr : Option String
  wrapLink : String → List String
  wrapText : String → List String
  hScale : ℚ
  vScale : ℚ
  fontScaleIn : ℚ
  charHeight : ℤ
  controls : ControlInput

/-- The state effect of `LegacyDialog::Unfade` (the emitted time scale is an
external effect, see `unfade`). -/
def stepUnfade (delta : ℕ) (s : DialogState) : DialogState :=
  { s with fadeTime := (unfade delta s.fadeTime).1 }

/-- One frame: attribute-change callbacks (`UpdateLinks`, `UpdateDialogText`)
arriving before the frame, then `LegacyDialog::Realize`: `Unfade`,
`UpdateScreenSize`, `ProcessControls`, and `UpdateBackBuffers` exactly when
the dirty flag is set.  Returns the new state and whether the rebuild ran. -/
def frameStep (x : FrameInput) (s : DialogState) : DialogState × Bool :=
  let sa := updateLinks x.wrapLink x.linksAttr s
  let sb := updateDialogText x.wrapText x.textAttr sa
  let sc := stepUnfade x.rDeltaTime sb
  let sd := updateScreenSize x.hScale x.vScale x.fontScaleIn x.charHeight sc
  let se := (processControls x.controls sd).1
  if se.backNeedsUpdate then (updateBackBuffersState se, true) else (se, false)

/-- Run a sequence of frames, counting how many of them ran the rebuild. -/
def runFrames : List FrameInput → DialogState → DialogState × ℕ
  | [], s => (s, 0)
  | x :: rest, s =>
    let r := frameStep x s
    let t := runFrames rest r.1
    (t.1, (if r.2 then 1 else 0) + t.2)

/-- `LegacyDialog::UpdateBackBuffers` acting on the device buffers: the whole
vertex region is rewritten, the index buffer and both capacities are left
untouched. -/
def updateBackBuffers (s : DialogState) (b : BackBuffers) :
    DialogState × BackBuffers :=
  let v := updateBackBuffersVertices s.screenScaleX s.screenScaleY s.lineHeight
    s.formattedDialogText.length s.formattedLinks.length
  ({ s with textureLines := v.2, backNeedsUpdate := false },
   { b with vertexData := v.1 })

/-- A nominal dialog state (unit screen scale, 26-pixel lines, no content,
an empty `Links` attribute present) used as a concrete evaluation point. -/
def baseState : DialogState :=
  { screenScaleX := 1
    screenScaleY := 1
    fontScale := 1
    lineHeight := 26
    dialogText := ""
    formattedDialogText := []
    links := []
    formattedLinks := []
    linksAttr := some []
    currentNode := none
    selectedLink := 0
    backNeedsUpdate := false
    textureLines := 0
    fadeTime := 0 }

/-- A control frame with only the first down binding activated. -/
def downOnlyInput : ControlInput :=
  { up1 := false, up2 := false, up3 := false
    down1 := true, down2 := false, down3 := false
    action1 := false, action2 := false, action3 := false }

/-- A control frame with only the first action binding activated. -/
def actionOnlyInput : ControlInput :=
  { up1 := false, up2 := false, up3 := false
    down1 := false, down2 := false, down3 := false
    action1 := true, action2 := false, action3 := false }

/-- A control frame with no binding activated. -/
def idleInput : ControlInput :=
  { up1 := false, up2 := false, up3 := false
    down1 := false, down2 := false, down3 := false
    action1 := false, action2 := false, action3 := false }

/-- A dialog node with the three choices `A`, `B`, `C` and per-choice
navigation targets, with choice `C` currently selected. -/
def threeChoiceState : DialogState :=
  { baseState with
    links := ["A", "B", "C"]
    formattedLinks :=
      [{ text := "A", lineIndex := 0 }, { text := "B", lineIndex := 1 },
       { text := "C", lineIndex := 2 }]
    linksAttr :=
      some [{ value := "A", go := some "nodeA" }, { value := "B", go := some "nodeB" },
            { value := "C", go := some "nodeC" }]
    selectedLink := 2 }

/-- A one-visual-line wrapping oracle for concrete evaluations. -/
def oneLineWrap : String → List String := fun t => [t]

/-- A concrete frame input matching `baseState` (same scale, same empty
content), used as the constant frame of witness evaluations. -/
def steadyFrame : FrameInput :=
  { rDeltaTime := 250
    linksAttr := some []
    textAttr := none
    wrapLink := oneLineWrap
    wrapText := oneLineWrap
    hScale := 1
    vScale := 1
    fontScaleIn := 1
    charHeight := 26
    controls := idleInput }

/-- The per-frame rebuild trigger of the source, phrased on the state at
frame entry: the screen scale moved beyond epsilon, or the wrapped body-line
count changes, or the wrapped link-line count changes. -/
def scaleOrContentChanged (x : FrameInput) (s : DialogState) : Prop :=
  scaleMoved x.hScale x.vScale s
  ∨ s.formattedDialogText.length ≠
      (formatDialogLines x.wrapText (Option.getD x.textAttr s.dialogText)).length
  ∨ s.formattedLinks.length ≠ (wrappedLinkEntries x.wrapLink x.linksAttr).length

instance (x : FrameInput) (s : DialogState) : Decidable (scaleOrContentChanged x s) :=
  instDecidableOr

/-! ### Field lemmas for the modelled operations -/

theorem updateLinks_formattedLinks (w : String → List String)
    (a : Option (List LinkAttr)) (s : DialogState) :
    (updateLinks w a s).formattedLinks = wrappedLinkEntries w a := by
  unfold updateLinks
  dsimp only
  split <;> rfl

theorem updateLinks_selectedLink (w : String → List String)
    (a : Option (List LinkAttr)) (s : DialogState) :
    (updateLinks w a s).selectedLink = s.selectedLink := by
  unfold updateLinks
  dsimp only
  split <;> rfl

theorem updateLinks_dialogText (w : String → List String)
    (a : Option (List LinkAttr)) (s : DialogState) :
    (updateLinks w a s).dialogText = s.dialogText := by
  unfold updateLinks
  dsimp only
  split <;> rfl

theorem updateLinks_formattedDialogText (w : String → List String)
    (a : Option (List LinkAttr)) (s : DialogState) :
    (updateLinks w a s).formattedDialogText = s.formattedDialogText := by
  unfold updateLinks
  dsimp only
  split <;> rfl

theorem updateLinks_screenScaleX (w : String → List String)
    (a : Option (List LinkAttr)) (s : DialogState) :
    (updateLinks w a s).screenScaleX = s.screenScaleX := by
  unfold updateLinks
  dsimp only
  split <;> rfl

theorem updateLinks_screenScaleY (w : String → List String)
    (a : Option (List LinkAttr)) (s : DialogState) :
    (updateLinks w a s).screenScaleY = s.screenScaleY := by
  unfold updateLinks
  dsimp only
  split <;> rfl

theorem updateLinks_backNeedsUpdate (w : String → List String)
    (a : Option (List LinkAttr)) (s : DialogState) :
    (updateLinks w a s).backNeedsUpdate =
      if s.formattedLinks.length ≠ (wrappedLinkEntries w a).length then true
      else s.backNeedsUpdate := by
  unfold updateLinks
  dsimp only
  split <;> simp_all

theorem updateDialogText_dialogText (w : String → List String)
    (t : Option String) (s : DialogState) :
    (updateDialogText w t s).dialogText = Option.getD t s.dialogText := by
  unfold updateDialogText
  dsimp only
  split <;> rfl

theorem updateDialogText_formattedDialogText (w : String → List String)
    (t : Option String) (s : DialogState) :
    (updateDialogText w t s).formattedDialogText =
      formatDialogLines w (Option.getD t s.dialogText) := by
  unfold updateDialogText
  dsimp only
  split <;> rfl

theorem updateDialogText_formattedLinks (w : String → List String)
    (t : Option String) (s : DialogState) :
    (updateDialogText w t s).formattedLinks = s.formattedLinks := by
  unfold updateDialogText
  dsimp only
  split <;> rfl

theorem updateDialogText_screenScaleX (w : String → List String)
    (t : Option String) (s : DialogState) :
    (updateDialogText w t s).screenScaleX = s.screenScaleX := by
  unfold updateDialogText
  dsimp only
  split <;> rfl

theorem updateDialogText_screenScaleY (w : String → List String)
    (t : Option String) (s : DialogState) :
    (updateDialogText w t s).screenScaleY = s.screenScaleY := by
  unfold updateDialogText
  dsimp only
  split <;> rfl

theorem updateDialogText_backNeedsUpdate (w : String → List String)
    (t : Option String) (s : DialogState) :
    (updateDialogText w t s).backNeedsUpdate =
      if s.formattedDialogText.length ≠
          (formatDialogLines w (Option.getD t s.dialogText)).length then true
      else s.backNeedsUpdate := by
  unfold updateDialogText
  dsimp only
  split <;> simp_all

theorem updateScreenSize_backNeedsUpdate (h v f : ℚ) (c : ℤ) (s : DialogState) :
    (updateScreenSize h v f c s).backNeedsUpdate =
      if scaleMoved h v s then true else s.backNeedsUpdate := by
  unfold updateScreenSize
  dsimp only
  split <;> split <;> simp_all

theorem updateScreenSize_dialogText (h v f : ℚ) (c : ℤ) (s : DialogState) :
    (updateScreenSize h v f c s).dialogText = s.dialogText := by
  unfold updateScreenSize
  dsimp only
  split <;> split <;> rfl

theorem updateScreenSize_formattedDialogText (h v f : ℚ) (c : ℤ) (s : DialogState) :
    (updateScreenSize h v f c s).formattedDialogText = s.formattedDialogText := by
  unfold updateScreenSize
  dsimp only
  split <;> split <;> rfl

theorem updateScreenSize_formattedLinks (h v f : ℚ) (c : ℤ) (s : DialogState) :
    (updateScreenSize h v f c s).formattedLinks = s.formattedLinks := by
  unfold updateScreenSize
  dsimp only
  split <;> split <;> rfl

theorem updateScreenSize_scale_close (h v f : ℚ) (c : ℤ) (s : DialogState) :
    |(updateScreenSize h v f c s).screenScaleX - h| ≤ 1 / 1000 ∧
      |(updateScreenSize h v f c s).screenScaleY - v| ≤ 1 / 1000 := by
  unfold updateScreenSize
  dsimp only
  split
  · split <;> constructor <;> (dsimp only; rw [sub_self, abs_zero]; norm_num)
  · rename_i hmov
    rw [scaleMoved] at hmov
    push_neg at hmov
    split <;> exact hmov

/-- `ProcessControls` agrees with its input state on every field except the
selection index and the `CurrentNode` attribute. -/
def sameFrameFields (s t : DialogState) : Prop :=
  t.screenScaleX = s.screenScaleX ∧ t.screenScaleY = s.screenScaleY ∧
    t.fontScale = s.fontScale ∧ t.lineHeight = s.lineHeight ∧
    t.dialogText = s.dialogText ∧ t.formattedDialogText = s.formattedDialogText ∧
    t.links = s.links ∧ t.formattedLinks = s.formattedLinks ∧
    t.linksAttr = s.linksAttr ∧ t.backNeedsUpdate = s.backNeedsUpdate ∧
    t.textureLines = s.textureLines ∧ t.fadeTime = s.fadeTime

theorem sameFrameFields_trans {s t u : DialogState}
    (h1 : sameFrameFields s t) (h2 : sameFrameFields t u) : sameFrameFields s u := by
  unfold sameFrameFields at h1 h2 ⊢
  obtain ⟨a1, a2, a3, a4, a5, a6, a7, a8, a9, a10, a11, a12⟩ := h1
  obtain ⟨b1, b2, b3, b4, b5, b6, b7, b8, b9, b10, b11, b12⟩ := h2
  refine ⟨?_, ?_, ?_, ?_, ?_, ?_, ?_, ?_, ?_, ?_, ?_, ?_⟩ <;> simp_all

theorem stepUp_sameFrameFields (press : Bool) (s : DialogState) :
    sameFrameFields s (stepUp press s).1 := by
  unfold stepUp sameFrameFields
  split <;> simp

theorem stepDown_sameFrameFields (press : Bool) (s : DialogState) :
    sameFrameFields s (stepDown press s).1 := by
  unfold stepDown sameFrameFields
  split <;> simp

theorem stepAction_sameFrameFields (press : Bool) (s : DialogState) :
    sameFrameFields s (stepAction press s).1 := by
  unfold stepAction sameFrameFields
  split
  · split <;> try split
    all_goals simp
  · simp

theorem processControls_sameFrameFields (input : ControlInput) (s : DialogState) :
    sameFrameFields s (processControls input s).1 := by
  unfold processControls
  dsimp only
  exact sameFrameFields_trans
    (stepUp_sameFrameFields _ s)
    (sameFrameFields_trans (stepDown_sameFrameFields _ _) (stepAction_sameFrameFields _ _))

theorem updateBackBuffersState_backNeedsUpdate (s : DialogState) :
    (updateBackBuffersState s).backNeedsUpdate = false := rfl

/-! ### The rebuild flag of one frame -/

theorem frameStep_flag (x : FrameInput) (s : DialogState) :
    (frameStep x s).2 = true ↔
      (s.backNeedsUpdate = true ∨ scaleOrContentChanged x s) := by
  have e1 : (frameStep x s).2 = true ↔ ((processControls x.controls
      (updateScreenSize x.hScale x.vScale x.fontScaleIn x.charHeight
        (stepUnfade x.rDeltaTime
          (updateDialogText x.wrapText x.textAttr
            (updateLinks x.wrapLink x.linksAttr s))))).1.backNeedsUpdate = true) := by
    unfold frameStep
    dsimp only
    split
    · rename_i hb
      simp [hb]
    · rename_i hb
      simp at hb
      simp [hb]
  rw [e1]
  set sa := updateLinks x.wrapLink x.linksAttr s with hsa
  set sb := updateDialogText x.wrapText x.textAttr sa with hsb
  set sc := stepUnfade x.rDeltaTime sb with hsc
  set sd := updateScreenSize x.hScale x.vScale x.fontScaleIn x.charHeight sc with hsd
  have epc : ((processControls x.controls sd).1).backNeedsUpdate = sd.backNeedsUpdate :=
    (processControls_sameFrameFields x.controls sd).2.2.2.2.2.2.2.2.2.1
  rw [epc, hsd, updateScreenSize_backNeedsUpdate]
  have emoved : scaleMoved x.hScale x.vScale sc = scaleMoved x.hScale x.vScale s := by
    unfold scaleMoved
    have ex : sc.screenScaleX = s.screenScaleX := by
      rw [hsc]
      show sb.screenScaleX = s.screenScaleX
      rw [hsb, updateDialogText_screenScaleX, hsa, updateLinks_screenScaleX]
    have ey : sc.screenScaleY = s.screenScaleY := by
      rw [hsc]
      show sb.screenScaleY = s.screenScaleY
      rw [hsb, updateDialogText_screenScaleY, hsa, updateLinks_screenScaleY]
    rw [ex, ey]
  have ebc : sc.backNeedsUpdate =
      if s.formattedDialogText.length ≠
          (formatDialogLines x.wrapText (Option.getD x.textAttr s.dialogText)).length then true
      else
        if s.formattedLinks.length ≠ (wrappedLinkEntries x.wrapLink x.linksAttr).length then
          true
        else s.backNeedsUpdate := by
    have h1 : sc.backNeedsUpdate = sb.backNeedsUpdate := rfl
    rw [h1, hsb, updateDialogText_backNeedsUpdate, hsa, updateLinks_formattedDialogText,
      updateLinks_dialogText, updateLinks_backNeedsUpdate]
  rw [ebc]
  simp only [emoved]
  unfold scaleOrContentChanged
  split_ifs with hA hB hC <;> simp [*]

/-- After any frame the state is consistent with a constant frame input: the
dirty flag is clear, the cached wrapped lines match the frame's attribute
tree and wrapping oracles, and the stored screen scale is within epsilon of
the frame's scale. -/
def settled (x : FrameInput) (s : DialogState) : Prop :=
  s.backNeedsUpdate = false
  ∧ s.formattedLinks = wrappedLinkEntries x.wrapLink x.linksAttr
  ∧ s.dialogText = Option.getD x.textAttr s.dialogText
  ∧ s.formattedDialogText = formatDialogLines x.wrapText s.dialogText
  ∧ |s.screenScaleX - x.hScale| ≤ 1 / 1000
  ∧ |s.screenScaleY - x.vScale| ≤ 1 / 1000

theorem frameStep_settled (x : FrameInput) (s : DialogState) :
    settled x ((frameStep x s).1) := by
  unfold frameStep
  dsimp only
  set sa := updateLinks x.wrapLink x.linksAttr s with hsa
  set sb := updateDialogText x.wrapText x.textAttr sa with hsb
  set sc := stepUnfade x.rDeltaTime sb with hsc
  set sd := updateScreenSize x.hScale x.vScale x.fontScaleIn x.charHeight sc with hsd
  set se := (processControls x.controls sd).1 with hse
  have hframe : sameFrameFields sd se := by
    rw [hse]
    exact processControls_sameFrameFields x.controls sd
  have hfl : se.formattedLinks = wrappedLinkEntries x.wrapLink x.linksAttr := by
    rw [hframe.2.2.2.2.2.2.2.1, hsd, updateScreenSize_formattedLinks, hsc]
    show sb.formattedLinks = _
    rw [hsb, updateDialogText_formattedLinks, hsa, updateLinks_formattedLinks]
  have hdt : se.dialogText = Option.getD x.textAttr s.dialogText := by
    rw [hframe.2.2.2.2.1, hsd, updateScreenSize_dialogText, hsc]
    show sb.dialogText = _
    rw [hsb, updateDialogText_dialogText, hsa, updateLinks_dialogText]
  have hfdt : se.formattedDialogText =
      formatDialogLines x.wrapText (Option.getD x.textAttr s.dialogText) := by
    rw [hframe.2.2.2.2.2.1, hsd, updateScreenSize_formattedDialogText, hsc]
    show sb.formattedDialogText = _
    rw [hsb, updateDialogText_formattedDialogText, hsa, updateLinks_dialogText]
  have hsx : |se.screenScaleX - x.hScale| ≤ 1 / 1000 := by
    rw [hframe.1, hsd]
    exact (updateScreenSize_scale_close x.hScale x.vScale x.fontScaleIn x.charHeight sc).1
  have hsy : |se.screenScaleY - x.vScale| ≤ 1 / 1000 := by
    rw [hframe.2.1, hsd]
    exact (updateScreenSize_scale_close x.hScale x.vScale x.fontScaleIn x.charHeight sc).2
  have hfix : Option.getD x.textAttr (Option.getD x.textAttr s.dialogText) =
      Option.getD x.textAttr s.dialogText := by
    cases x.textAttr <;> rfl
  split
  · -- the rebuild ran: the resulting state is `updateBackBuffersState se`
    refine ⟨rfl, ?_, ?_, ?_, ?_, ?_⟩
    · show se.formattedLinks = _
      exact hfl
    · show se.dialogText = Option.getD x.textAttr se.dialogText
      rw [hdt, hfix]
    · show se.formattedDialogText = formatDialogLines x.wrapText se.dialogText
      rw [hfdt, hdt]
    · exact hsx
    · exact hsy
  · rename_i hb
    simp at hb
    refine ⟨hb, hfl, ?_, ?_, hsx, hsy⟩
    · rw [hdt, hfix]
    · rw [hfdt, hdt]

theorem settled_frameStep_flag_false (x : FrameInput) (s : DialogState)
    (hs : settled x s) : (frameStep x s).2 = false := by
  obtain ⟨h0, h1, h2, h3, h4, h5⟩ := hs
  have hnot : ¬ (s.backNeedsUpdate = true ∨ scaleOrContentChanged x s) := by
    rintro (hb | hA | hB | hC)
    · rw [h0] at hb
      exact Bool.false_ne_true hb
    · rcases hA with a | a
      · exact absurd a (not_lt.mpr h4)
      · exact absurd a (not_lt.mpr h5)
    · apply hB
      rw [← h2, ← h3]
    · apply hC
      rw [h1]
  cases hflag : (frameStep x s).2 with
  | false => rfl
  | true => exact absurd ((frameStep_flag x s).mp hflag) hnot

theorem runFrames_replicate_settled (x : FrameInput) :
    ∀ (m : ℕ) (s : DialogState), settled x s →
      (runFrames (List.replicate m x) s).2 = 0 ∧
        settled x (runFrames (List.replicate m x) s).1 := by
  intro m
  induction m with
  | zero =>
    intro s hs
    exact ⟨rfl, hs⟩
  | succ k ih =>
    intro s hs
    have hflag := settled_frameStep_flag_false x s hs
    have hnext := ih (frameStep x s).1 (frameStep_settled x s)
    simp only [List.replicate_succ, runFrames]
    rw [hflag]
    exact ⟨by simp [hnext.1], hnext.2⟩

theorem runFrames_replicate_le_one (x : FrameInput) (s : DialogState) (m : ℕ) :
    (runFrames (List.replicate (m + 1) x) s).2 ≤ 1 ∧
      settled x (runFrames (List.replicate (m + 1) x) s).1 := by
  have h := runFrames_replicate_settled x m (frameStep x s).1 (frameStep_settled x s)
  simp only [List.replicate_succ, runFrames]
  refine ⟨?_, h.2⟩
  rw [h.1]
  split <;> simp

/-! ### Claim theorems -/

/-- C1: the mesh rebuild runs on a frame exactly when, since the previous
frame, the screen scale moved by more than `1e-3`, or the wrapped body-line
count changed, or the wrapped link-line count changed; it is never triggered
by a selection change alone (the control input does not influence the
rebuild flag); and over any `n ≥ 1` frames with constant input the rebuild
runs at most once, only on the first frame, with the dirty flag clear
afterwards. -/
theorem rebuild_gating_exact (s : DialogState) (x : FrameInput) (n : ℕ)
    (hclean : s.backNeedsUpdate = false) (hn : 1 ≤ n) :
    ((frameStep x s).2 = true ↔ scaleOrContentChanged x s)
    ∧ (∀ c : ControlInput,
        (frameStep { x with controls := c } s).2 = (frameStep x s).2)
    ∧ (runFrames (List.replicate n x) s).2 ≤ 1
    ∧ (runFrames (List.replicate n x) s).1.backNeedsUpdate = false
    ∧ (frameStep x (runFrames (List.replicate n x) s).1).2 = false := by
  obtain ⟨m, rfl⟩ : ∃ m, n = m + 1 := ⟨n - 1, by omega⟩
  have hle := runFrames_replicate_le_one x s m
  refine ⟨?_, ?_, hle.1, hle.2.1, settled_frameStep_flag_false x _ hle.2⟩
  · rw [frameStep_flag, hclean]
    simp
  · intro c
    rw [Bool.eq_iff_iff, frameStep_flag, frameStep_flag]
    exact Iff.rfl

/-- Witness for C1 at the nominal state and a matching constant frame. -/
theorem rebuild_gating_exact_witness :
    baseState.backNeedsUpdate = false ∧ 1 ≤ 2 ∧
      (((frameStep steadyFrame baseState).2 = true ↔
          scaleOrContentChanged steadyFrame baseState)
        ∧ (∀ c : ControlInput,
            (frameStep { steadyFrame with controls := c } baseState).2 =
              (frameStep steadyFrame baseState).2)
        ∧ (runFrames (List.replicate 2 steadyFrame) baseState).2 ≤ 1
        ∧ (runFrames (List.replicate 2 steadyFrame) baseState).1.backNeedsUpdate = false
        ∧ (frameStep steadyFrame
            (runFrames (List.replicate 2 steadyFrame) baseState).1).2 = false) :=
  ⟨rfl, by decide, rebuild_gating_exact baseState steadyFrame 2 rfl (by decide)⟩

/-- C2: evaluation at the failing input.  With an empty choice list and one
down press at `selectedIndex = 0`, the source's unsigned comparison
`selectedLink_ < links_.size() - 1` underflows to `0 < 2⁶⁴ - 1`, so the code
plays the tick sound and pushes the selection index out of range to 1 —
contradicting the claim that the index stays in range and no tick plays. -/
theorem down_on_empty_list_underflows :
    (processControls downOnlyInput baseState).1.selectedLink = 1
    ∧ (processControls downOnlyInput baseState).2.ticks = 1 :=
  ⟨rfl, rfl⟩

/-- C4: confirm with a selected entry present reads its `go` target, writes
it to `CurrentNode`, raises `DialogEvent`, and resets the selection to 0. -/
theorem confirm_navigates_and_resets (input : ControlInput) (s : DialogState)
    (l : List LinkAttr) (entry : LinkAttr)
    (hup : controlTriple input.up1 input.up2 input.up3 = false)
    (hdown : controlTriple input.down1 input.down2 input.down3 = false)
    (haction : controlTriple input.action1 input.action2 input.action3 = true)
    (hattr : s.linksAttr = some l)
    (hsel : l[s.selectedLink]? = some entry) :
    (processControls input s).1.currentNode = entry.go
    ∧ (processControls input s).1.selectedLink = 0
    ∧ (processControls input s).2.eventRaised = true := by
  have h1 : stepUp false s = (s, 0) := by
    unfold stepUp
    simp
  have h2 : stepDown false s = (s, 0) := by
    unfold stepDown
    simp
  unfold processControls stepAction
  rw [hup, hdown, haction]
  simp only [h1, h2]
  simp [hattr, hsel]

/-- Witness for C4: choices `A, B, C` with `selectedIndex = 2`: the emitted
target is choice C's `nodeC` and the selection resets to 0. -/
theorem confirm_navigates_and_resets_witness :
    controlTriple actionOnlyInput.up1 actionOnlyInput.up2 actionOnlyInput.up3 = false
    ∧ controlTriple actionOnlyInput.down1 actionOnlyInput.down2 actionOnlyInput.down3 = false
    ∧ controlTriple actionOnlyInput.action1 actionOnlyInput.action2 actionOnlyInput.action3 = true
    ∧ threeChoiceState.linksAttr =
        some [{ value := "A", go := some "nodeA" }, { value := "B", go := some "nodeB" },
              { value := "C", go := some "nodeC" }]
    ∧ ((processControls actionOnlyInput threeChoiceState).1.currentNode = some "nodeC"
        ∧ (processControls actionOnlyInput threeChoiceState).1.selectedLink = 0
        ∧ (processControls actionOnlyInput threeChoiceState).2.eventRaised = true) :=
  ⟨rfl, rfl, rfl, rfl,
    confirm_navigates_and_resets actionOnlyInput threeChoiceState
      [{ value := "A", go := some "nodeA" }, { value := "B", go := some "nodeB" },
       { value := "C", go := some "nodeC" }]
      { value := "C", go := some "nodeC" } rfl rfl rfl rfl rfl⟩

/-- C5 counterexample: replacing the `Links` tree of a node whose selection
index is 2 by a one-entry list leaves `selectedLink_` at 2 — it is not reset
to 0, although the wrapped link-line count changed (and the rebuild is indeed
forced). -/
theorem replace_links_keeps_selection :
    (updateLinks oneLineWrap (some [{ value := "X", go := some "nodeX" }])
        threeChoiceState).selectedLink ≠ 0
    ∧ (updateLinks oneLineWrap (some [{ value := "X", go := some "nodeX" }])
        threeChoiceState).formattedLinks.length ≠ threeChoiceState.formattedLinks.length
    ∧ (updateLinks oneLineWrap (some [{ value := "X", go := some "nodeX" }])
        threeChoiceState).backNeedsUpdate = true := by
  refine ⟨?_, ?_, ?_⟩ <;> decide

/-- C5 as amended: replacing the choice list never touches the selection
index (it is reset only on confirm), and a mesh rebuild is forced whenever
the replacement changes the wrapped link-line count. -/
theorem replace_links_effects (w : String → List String)
    (a : Option (List LinkAttr)) (s : DialogState)
    (hcount : s.formattedLinks.length ≠ (wrappedLinkEntries w a).length) :
    (updateLinks w a s).selectedLink = s.selectedLink
    ∧ (updateLinks w a s).backNeedsUpdate = true := by
  refine ⟨updateLinks_selectedLink w a s, ?_⟩
  rw [updateLinks_backNeedsUpdate]
  simp [hcount]

/-- Witness for the amended C5. -/
theorem replace_links_effects_witness :
    threeChoiceState.formattedLinks.length ≠
      (wrappedLinkEntries oneLineWrap
        (some [{ value := "X", go := some "nodeX" }])).length
    ∧ ((updateLinks oneLineWrap (some [{ value := "X", go := some "nodeX" }])
          threeChoiceState).selectedLink = threeChoiceState.selectedLink
        ∧ (updateLinks oneLineWrap (some [{ value := "X", go := some "nodeX" }])
            threeChoiceState).backNeedsUpdate = true) :=
  ⟨by decide,
    replace_links_effects oneLineWrap (some [{ value := "X", go := some "nodeX" }])
      threeChoiceState (by decide)⟩

/-- C6 counterexample: confirm with an empty choice list still plays the tick
sound (`PlayTick()` runs before the empty check), refuting the "no feedback
sound" part; state and event are indeed untouched. -/
theorem confirm_empty_plays_tick :
    (processControls actionOnlyInput baseState).2.ticks = 1
    ∧ (processControls actionOnlyInput baseState).1 = baseState
    ∧ (processControls actionOnlyInput baseState).2.eventRaised = false :=
  ⟨rfl, rfl, rfl⟩

/-- C6 as amended: confirm on an empty choice list changes no state and
raises no event, but plays exactly one tick sound. -/
theorem confirm_empty_noop_but_tick (input : ControlInput) (s : DialogState)
    (hup : controlTriple input.up1 input.up2 input.up3 = false)
    (hdown : controlTriple input.down1 input.down2 input.down3 = false)
    (haction : controlTriple input.action1 input.action2 input.action3 = true)
    (hattr : s.linksAttr = none ∨ s.linksAttr = some []) :
    (processControls input s).1 = s
    ∧ (processControls input s).2.eventRaised = false
    ∧ (processControls input s).2.ticks = 1 := by
  have h1 : stepUp false s = (s, 0) := by
    unfold stepUp
    simp
  have h2 : stepDown false s = (s, 0) := by
    unfold stepDown
    simp
  unfold processControls stepAction
  rw [hup, hdown, haction]
  simp only [h1, h2]
  rcases hattr with h | h <;> simp [h]

/-- Witness for the amended C6. -/
theorem confirm_empty_noop_but_tick_witness :
    controlTriple actionOnlyInput.up1 actionOnlyInput.up2 actionOnlyInput.up3 = false
    ∧ controlTriple actionOnlyInput.down1 actionOnlyInput.down2 actionOnlyInput.down3 = false
    ∧ controlTriple actionOnlyInput.action1 actionOnlyInput.action2 actionOnlyInput.action3 = true
    ∧ (baseState.linksAttr = none ∨ baseState.linksAttr = some [])
    ∧ ((processControls actionOnlyInput baseState).1 = baseState
        ∧ (processControls actionOnlyInput baseState).2.eventRaised = false
        ∧ (processControls actionOnlyInput baseState).2.ticks = 1) :=
  ⟨rfl, rfl, rfl, Or.inr rfl,
    confirm_empty_noop_but_tick actionOnlyInput baseState rfl rfl rfl (Or.inr rfl)⟩

theorem flatMap_chunk {α β : Type} [Inhabited α] (f : α → List β) (c : ℕ)
    (hf : ∀ a : α, (f a).length = c) :
    ∀ (l : List α) (k : ℕ), k < l.length →
      ((l.flatMap f).drop (k * c)).take c = f (l.getD k default) := by
  intro l
  induction l with
  | nil =>
    intro k hk
    exact absurd hk (Nat.not_lt_zero k)
  | cons a tl ih =>
    intro k hk
    cases k with
    | zero =>
      rw [List.flatMap_cons, Nat.zero_mul, List.drop_zero, List.take_left' (hf a)]
      rfl
    | succ k =>
      rw [List.flatMap_cons]
      have hlen : (k + 1) * c = (f a).length + k * c := by
        rw [hf a]
        ring
      rw [hlen, List.drop_append_eq_append_drop,
        List.drop_eq_nil_of_le (by omega : (f a).length ≤ (f a).length + k * c)]
      have hsub : (f a).length + k * c - (f a).length = k * c := by omega
      rw [List.nil_append, hsub]
      exact ih k (Nat.lt_of_succ_lt_succ hk)

theorem flatMap_length_const {α β : Type} (f : α → List β) (c : ℕ)
    (hf : ∀ a : α, (f a).length = c) :
    ∀ l : List α, (l.flatMap f).length = l.length * c := by
  intro l
  induction l with
  | nil => simp
  | cons a tl ih =>
    rw [List.flatMap_cons, List.length_append, hf a, ih, List.length_cons]
    ring

theorem panelSprites_length (v : ℚ) (lh : ℤ) (body link : ℕ) :
    (panelSprites v lh body link).1.length = SPRITE_COUNT := rfl

/-- C3: during a rebuild, `textureLines` is
`⌊((bodyLines + linkLines) * lineHeight / vScale) / 26⌋`, plus one extra when
the link list is non-empty; the top-of-panel tile (quad 15, vertices 60–63)
is the template's sprite 8 shifted up by `26 * textureLines` template pixels,
and the divider tile (quad 16, vertices 64–67) is sprite 9 shifted up by
`linkLines * lineHeight / vScale`. -/
theorem texture_lines_and_tile_offsets (h v : ℚ) (lh : ℤ) (body link : ℕ) :
    (updateBackBuffersVertices h v lh body link).2 =
        ⌊(((body + link : ℕ) : ℚ) * (lh : ℚ) / v) / 26⌋
          + (if link ≠ 0 then 1 else 0)
    ∧ ((updateBackBuffersVertices h v lh body link).1.drop (15 * 4)).take 4 =
        createSpriteMesh h v (offsetSprite
          (26 * (((updateBackBuffersVertices h v lh body link).2 : ℤ) : ℚ))
          (spriteAt 8))
    ∧ ((updateBackBuffersVertices h v lh body link).1.drop (16 * 4)).take 4 =
        createSpriteMesh h v
          (offsetSprite ((link : ℚ) * (lh : ℚ) / v) (spriteAt 9)) := by
  have hd : ((DIALOG_LINE_HEIGHT : ℤ) : ℚ) = 26 := by
    norm_num [DIALOG_LINE_HEIGHT]
  refine ⟨?_, ?_, ?_⟩
  · show (if link ≠ 0 then
        ⌊(((body + link : ℕ) : ℚ) * (lh : ℚ) / v) / ((DIALOG_LINE_HEIGHT : ℤ) : ℚ)⌋ + 1
      else ⌊(((body + link : ℕ) : ℚ) * (lh : ℚ) / v) / ((DIALOG_LINE_HEIGHT : ℤ) : ℚ)⌋) = _
    rw [hd]
    split_ifs <;> simp
  · have hc := flatMap_chunk (createSpriteMesh h v) 4 (fun _ => rfl)
      (panelSprites v lh body link).1 15
      (by rw [panelSprites_length]; decide)
    show (((panelSprites v lh body link).1.flatMap (createSpriteMesh h v)).drop
        (15 * 4)).take 4 = _
    rw [hc]
    show createSpriteMesh h v (offsetSprite
        (((DIALOG_LINE_HEIGHT : ℤ) : ℚ) *
          (((updateBackBuffersVertices h v lh body link).2 : ℤ) : ℚ)) (spriteAt 8)) = _
    rw [hd]
  · have hc := flatMap_chunk (createSpriteMesh h v) 4 (fun _ => rfl)
      (panelSprites v lh body link).1 16
      (by rw [panelSprites_length]; decide)
    show (((panelSprites v lh body link).1.flatMap (createSpriteMesh h v)).drop
        (16 * 4)).take 4 = _
    rw [hc]
    rfl

/-- C7: every quad of the rebuilt panel is exactly 4 vertices — top-left,
top-right, bottom-left, bottom-right of some sprite rectangle — at positions
`(hScale·x, vScale·y)` with `z = 1`, `rhw = 0.5` and the constant
full-opacity color; and the index buffer holds 6 indices per sprite forming
two triangles with winding `(0,2,1)` and `(1,2,3)` relative to the quad. -/
theorem quad_vertices_and_winding (h v : ℚ) (lh : ℤ) (body link : ℕ) (k : ℕ)
    (hk : k < SPRITE_COUNT) :
    (∃ sp : SpriteInfo,
        ((updateBackBuffersVertices h v lh body link).1.drop (k * 4)).take 4 =
          [⟨h * sp.position.left, v * sp.position.top, 1, 1 / 2, COLOR_NORMAL,
              sp.uv.left, sp.uv.top⟩,
           ⟨h * sp.position.right, v * sp.position.top, 1, 1 / 2, COLOR_NORMAL,
              sp.uv.right, sp.uv.top⟩,
           ⟨h * sp.position.left, v * sp.position.bottom, 1, 1 / 2, COLOR_NORMAL,
              sp.uv.left, sp.uv.bottom⟩,
           ⟨h * sp.position.right, v * sp.position.bottom, 1, 1 / 2, COLOR_NORMAL,
              sp.uv.right, sp.uv.bottom⟩])
    ∧ ((fillIndexBuffer SPRITE_COUNT).drop (k * 6)).take 6 =
        [k * 4 + 0, k * 4 + 2, k * 4 + 1, k * 4 + 1, k * 4 + 2, k * 4 + 3] := by
  constructor
  · refine ⟨(panelSprites v lh body link).1.getD k default, ?_⟩
    have hlen : k < (panelSprites v lh body link).1.length := by
      rw [panelSprites_length]
      exact hk
    have hc := flatMap_chunk (createSpriteMesh h v) 4 (fun _ => rfl)
      (panelSprites v lh body link).1 k hlen
    show (((panelSprites v lh body link).1.flatMap (createSpriteMesh h v)).drop
        (k * 4)).take 4 = _
    rw [hc]
    rfl
  · have hlen : k < (List.range SPRITE_COUNT).length := by
      rw [List.length_range]
      exact hk
    have hc := flatMap_chunk
      (fun n => [n * 4 + 0, n * 4 + 2, n * 4 + 1, n * 4 + 1, n * 4 + 2, n * 4 + 3]) 6
      (fun _ => rfl) (List.range SPRITE_COUNT) k hlen
    have hr : (List.range SPRITE_COUNT).getD k default = k := by
      rw [List.getD_eq_getElem?_getD, List.getElem?_range hk]
      rfl
    show ((((List.range SPRITE_COUNT).flatMap fun n =>
        [n * 4 + 0, n * 4 + 2, n * 4 + 1, n * 4 + 1, n * 4 + 2, n * 4 + 3]).drop
          (k * 6)).take 6) = _
    rw [hc, hr]

/-- Witness for C7 at the divider quad `k = 16` with nominal parameters. -/
theorem quad_vertices_and_winding_witness :
    16 < SPRITE_COUNT ∧
      ((∃ sp : SpriteInfo,
          ((updateBackBuffersVertices 1 1 26 2 1).1.drop (16 * 4)).take 4 =
            [⟨1 * sp.position.left, 1 * sp.position.top, 1, 1 / 2, COLOR_NORMAL,
                sp.uv.left, sp.uv.top⟩,
             ⟨1 * sp.position.right, 1 * sp.position.top, 1, 1 / 2, COLOR_NORMAL,
                sp.uv.right, sp.uv.top⟩,
             ⟨1 * sp.position.left, 1 * sp.position.bottom, 1, 1 / 2, COLOR_NORMAL,
                sp.uv.left, sp.uv.bottom⟩,
             ⟨1 * sp.position.right, 1 * sp.position.bottom, 1, 1 / 2, COLOR_NORMAL,
                sp.uv.right, sp.uv.bottom⟩])
      ∧ ((fillIndexBuffer SPRITE_COUNT).drop (16 * 6)).take 6 =
          [16 * 4 + 0, 16 * 4 + 2, 16 * 4 + 1, 16 * 4 + 1, 16 * 4 + 2, 16 * 4 + 3]) :=
  ⟨by decide, quad_vertices_and_winding 1 1 26 2 1 16 (by decide)⟩

/-- C8: the buffers are allocated once at initialization with the fixed sizes
`(10 + (maxLines - 1)) * 4` vertices and `* 6` indices for `maxLines = 8`
(`SPRITE_DATA` has exactly 10 entries); the index data is written at creation
time by `FillIndexBuffer`; and every rebuild leaves the capacities and the
index data untouched, rewriting exactly the `SPRITE_COUNT * 4` vertex region. -/
theorem buffers_fixed_and_index_write_once :
    SPRITE_DATA.length = 10
    ∧ createBackBuffers.vertexCapacity = (10 + (DIALOG_MAX_LINES - 1)) * 4
    ∧ createBackBuffers.indexCapacity = (10 + (DIALOG_MAX_LINES - 1)) * 6
    ∧ createBackBuffers.indexData = fillIndexBuffer SPRITE_COUNT
    ∧ (∀ (s : DialogState) (b : BackBuffers),
        (updateBackBuffers s b).2.indexData = b.indexData
        ∧ (updateBackBuffers s b).2.vertexCapacity = b.vertexCapacity
        ∧ (updateBackBuffers s b).2.indexCapacity = b.indexCapacity
        ∧ (updateBackBuffers s b).2.vertexData.length = SPRITE_COUNT * 4
        ∧ (updateBackBuffers s b).1.backNeedsUpdate = false) := by
  refine ⟨rfl, rfl, rfl, rfl, ?_⟩
  intro s b
  refine ⟨rfl, rfl, rfl, ?_, rfl⟩
  show ((panelSprites s.screenScaleY s.lineHeight s.formattedDialogText.length
      s.formattedLinks.length).1.flatMap
        (createSpriteMesh s.screenScaleX s.screenScaleY)).length = SPRITE_COUNT * 4
  rw [flatMap_length_const (createSpriteMesh s.screenScaleX s.screenScaleY) 4
    (fun _ => rfl), panelSprites_length]

theorem unfade_fst_of_le (d ft : ℕ) (hle : ft ≤ UNFADE_TIME) :
    (unfade d ft).1 = ft + d := by
  unfold unfade
  rw [if_pos hle]

theorem unfade_snd_of_le (d ft : ℕ) (hle : ft ≤ UNFADE_TIME) :
    (unfade d ft).2 =
      some (min 1 (((ft + d : ℕ) : ℚ) / ((UNFADE_TIME : ℕ) : ℚ))) := by
  unfold unfade
  rw [if_pos hle]
  dsimp only
  congr 1
  by_cases hk : (1 : ℚ) < ((ft + d : ℕ) : ℚ) / ((UNFADE_TIME : ℕ) : ℚ)
  · rw [if_pos hk, min_eq_left hk.le]
  · rw [if_neg hk, min_eq_right (not_lt.mp hk)]

/-- C9: while the ramp is running, `Unfade` accumulates the frame delta into
the counter (which never decreases — the ramp is one-shot) and emits the
time scale `min(1, counter / 1000)`; over two consecutive emitting frames the
emitted value is non-decreasing; and from counter 0 with 250 ms steps the
five consecutive outputs are `0.25, 0.5, 0.75, 1.0, 1.0`. -/
theorem unfade_ramp_behavior (d e ft : ℕ) (hft : ft ≤ UNFADE_TIME)
    (hfd : ft + d ≤ UNFADE_TIME) :
    (unfade d ft).2 = some (min 1 (((ft + d : ℕ) : ℚ) / 1000))
    ∧ ft ≤ (unfade d ft).1
    ∧ (unfade d ft).2.getD 0 ≤ (unfade e (unfade d ft).1).2.getD 0
    ∧ unfadeOutputs [250, 250, 250, 250, 250] 0 = [1 / 4, 1 / 2, 3 / 4, 1, 1] := by
  have hcast : ((UNFADE_TIME : ℕ) : ℚ) = 1000 := by
    norm_num [UNFADE_TIME]
  refine ⟨?_, ?_, ?_, ?_⟩
  · rw [unfade_snd_of_le d ft hft, hcast]
  · unfold unfade
    split <;> simp
  · rw [unfade_snd_of_le d ft hft, unfade_fst_of_le d ft hft,
      unfade_snd_of_le e (ft + d) hfd]
    dsimp only [Option.getD]
    refine min_le_min (le_refl 1) ?_
    refine div_le_div_of_nonneg_right ?_ (Nat.cast_nonneg UNFADE_TIME)
    exact_mod_cast Nat.le_add_right (ft + d) e
  · have h1 : unfade 250 0 = (250, some ((250 : ℚ) / 1000)) := by
      unfold unfade UNFADE_TIME
      norm_num
    have h2 : unfade 250 250 = (500, some ((500 : ℚ) / 1000)) := by
      unfold unfade UNFADE_TIME
      norm_num
    have h3 : unfade 250 500 = (750, some ((750 : ℚ) / 1000)) := by
      unfold unfade UNFADE_TIME
      norm_num
    have h4 : unfade 250 750 = (1000, some (1 : ℚ)) := by
      unfold unfade UNFADE_TIME
      norm_num
    have h5 : unfade 250 1000 = (1250, some (1 : ℚ)) := by
      unfold unfade UNFADE_TIME
      norm_num
    simp only [unfadeOutputs, h1, h2, h3, h4, h5]
    norm_num

/-- Witness for C9: the first two 250 ms frames from counter 0. -/
theorem unfade_ramp_behavior_witness :
    0 ≤ UNFADE_TIME ∧ 0 + 250 ≤ UNFADE_TIME ∧
      ((unfade 250 0).2 = some (min 1 (((0 + 250 : ℕ) : ℚ) / 1000))
        ∧ 0 ≤ (unfade 250 0).1
        ∧ (unfade 250 0).2.getD 0 ≤ (unfade 250 (unfade 250 0).1).2.getD 0
        ∧ unfadeOutputs [250, 250, 250, 250, 250] 0 = [1 / 4, 1 / 2, 3 / 4, 1, 1]) :=
  ⟨by decide, by decide, unfade_ramp_behavior 250 250 0 (by decide) (by decide)⟩

/-- C10: when the attribute tree has no `Text` attribute, the stored raw
dialog text keeps its previous value and the wrapped dialog lines are
recomputed from that retained text. -/
theorem text_retained_without_attribute (w : String → List String) (s : DialogState) :
    (updateDialogText w none s).dialogText = s.dialogText
    ∧ (updateDialogText w none s).formattedDialogText =
        formatDialogLines w s.dialogText := by
  constructor
  · rw [updateDialogText_dialogText]
    rfl
  · rw [updateDialogText_formattedDialogText]
    rfl

end LegacyDialog
